import Mathlib

set_option autoImplicit false

/-!
Verification development for the macOS idle-time extension fragment of Task
Coach (src/extension/macos/src/idlemgt/main.h).

The repository supplies only the header: the struct PyIdle, which embeds the
host runtime object header (PyObject_HEAD) and two operating-system handles,
a Mach port and an I/O Registry entry.  The three operations of the component
(acquire, queryIdleSeconds, release) are declared by the specification only,
so they are modelled from the spec below; the struct itself is translated
from the source header.
-/

/-- Translated from the source: the host runtime's object header
(PyObject_HEAD), a reference count and a pointer to the type object.
Pointers are modelled as natural numbers. -/
structure PyObject_HEAD where
  ob_refcnt : Int
  ob_type : Nat
deriving DecidableEq

/-- Translated from the source struct in main.h lines 26-31:

    typedef struct {
        PyObject_HEAD
        mach_port_t machPort;
        io_registry_entry_t regEntry;
    } PyIdle;

mach_port_t and io_registry_entry_t are opaque OS handle types, modelled as
natural numbers. -/
structure PyIdle where
  ob_base : PyObject_HEAD
  machPort : Nat
  regEntry : Nat
deriving DecidableEq

/-- Modelled from the spec: the designated "invalid/null" sentinel for an OS
handle (MACH_PORT_NULL for the Mach port, the null registry entry for the
I/O Registry handle). -/
def sentinel : Nat := 0

/-- Modelled from the spec: the operating-system services the component
consumes (section 6 of the spec): the current task's Mach port, the
registry/service lookup that resolves the power-management root entry
(none when the lookup fails), and the property-read API that fetches the
idle-time value, in nanoseconds, from a registry entry (none when the entry
no longer exists or the property is absent). -/
structure OSEnv where
  taskPort : Nat
  registryRoot : Option Nat
  idleNanos : Nat → Option Int

/-- Modelled from the spec (section 7): the construction-time failure kind. -/
inductive AcquisitionFailure where
  | registryRootNotFound
deriving DecidableEq

/-- Modelled from the spec: the result of a query: a duration in whole
seconds, or the "property unavailable" indication. -/
inductive QueryResult where
  | seconds (v : Int)
  | QueryUnavailable
deriving DecidableEq

/-- Modelled from the spec (section 4.1, acquire): obtains the current
task's Mach port, then locates the root entry of the I/O power-management
registry plane.  On success both handles are stored; if the lookup cannot
find the expected registry root the failure is reported as a
construction-time error and the registry handle is left in the sentinel
state. -/
def acquire (head : PyObject_HEAD) (env : OSEnv) :
    PyIdle × Option AcquisitionFailure :=
  match env.registryRoot with
  | some root =>
      ({ ob_base := head, machPort := env.taskPort, regEntry := root }, none)
  | none =>
      ({ ob_base := head, machPort := env.taskPort, regEntry := sentinel },
       some AcquisitionFailure.registryRootNotFound)

/-- Modelled from the spec (section 4.1, queryIdleSeconds): reads the
idle-time property (a kernel-reported duration in nanoseconds) from the
registry entry and converts it to whole seconds.  A query is never attempted
against a sentinel handle; if the property cannot be read the sentinel
"unavailable" indication is returned instead of raising.  The first
component is the handle after the call (queries do not mutate the handle). -/
def queryStep (env : OSEnv) (h : PyIdle) : PyIdle × QueryResult :=
  if h.regEntry = sentinel then
    (h, QueryResult.QueryUnavailable)
  else
    match env.idleNanos h.regEntry with
    | some ns => (h, QueryResult.seconds (ns / 1000000000))
    | none => (h, QueryResult.QueryUnavailable)

/-- Modelled from the spec: the value returned by a queryIdleSeconds call. -/
def queryIdleSeconds (env : OSEnv) (h : PyIdle) : QueryResult :=
  (queryStep env h).2

/-- Modelled from the spec: the deallocation requests release issues to the
operating system (closing the registry entry, deallocating the Mach port). -/
inductive ReleaseAction where
  | closeRegEntry (e : Nat)
  | deallocPort (p : Nat)
deriving DecidableEq

/-- Modelled from the spec (section 4.1, release): closes the registry entry
and deallocates the Mach port, defensively: a handle already in the sentinel
state is not released again, so duplicate calls are a no-op rather than a
double free.  Both fields are left in the sentinel state afterwards.  The
second component lists the deallocation requests actually issued to the OS. -/
def release (h : PyIdle) : PyIdle × List ReleaseAction :=
  ({ ob_base := h.ob_base, machPort := sentinel, regEntry := sentinel },
   (if h.regEntry = sentinel then [] else [ReleaseAction.closeRegEntry h.regEntry])
     ++ (if h.machPort = sentinel then [] else [ReleaseAction.deallocPort h.machPort]))

/-- Modelled from the spec: the operations a caller can perform on the
component: construction-time acquisition, an idle-time query, teardown. -/
inductive Op where
  | acquire
  | query
  | release
deriving DecidableEq

/-- Modelled from the spec (section 4.1): the three lifecycle states of a
handle. -/
inductive Phase where
  | unacquired
  | acquired
  | released
deriving DecidableEq

/-- Modelled from the spec: the lifecycle transition taken by one operation.
A successful acquisition moves an unacquired handle to acquired (a failed
lookup leaves it unacquired, in the sentinel state); a query on an acquired
handle is a self-loop; release moves an acquired handle to released.  Every
other operation is tolerated as a no-op: a query on an unacquired or
released handle returns QueryUnavailable without touching the handles, and
a duplicate release is idempotent. -/
def phaseStep (env : OSEnv) : Phase → Op → Phase
  | Phase.unacquired, Op.acquire =>
      if (env.registryRoot).isSome then Phase.acquired else Phase.unacquired
  | Phase.acquired, Op.query => Phase.acquired
  | Phase.acquired, Op.release => Phase.released
  | p, _ => p

/-- The labelled transitions (source phase, operation, target phase) taken
while executing a sequence of operations from a given phase. -/
def transitions (env : OSEnv) : Phase → List Op → List (Phase × Op × Phase)
  | _, [] => []
  | p, o :: ops =>
      (p, o, phaseStep env p o) :: transitions env (phaseStep env p o) ops

/-- The three transitions named by the lifecycle claim: acquire
(unacquired → acquired), query (acquired → acquired self-loop), release
(acquired → released). -/
def claimedTransitions : List (Phase × Op × Phase) :=
  [(Phase.unacquired, Op.acquire, Phase.acquired),
   (Phase.acquired, Op.query, Phase.acquired),
   (Phase.acquired, Op.release, Phase.released)]

/-- Operations available on a constructed handle (acquisition happens once,
at construction). -/
inductive HandleOp where
  | query
  | release
deriving DecidableEq

/-- Run a sequence of post-construction operations on a handle, threading
the handle state through each call. -/
def runOps (env : OSEnv) (h : PyIdle) : List HandleOp → PyIdle
  | [] => h
  | HandleOp.query :: ops => runOps env (queryStep env h).1 ops
  | HandleOp.release :: ops => runOps env (release h).1 ops

/-- A concrete object header used by the closed-form witnesses. -/
def head0 : PyObject_HEAD := { ob_refcnt := 1, ob_type := 5 }

/-- A concrete healthy environment: the registry root is entry 2 and its
idle-time property reads 7000000000 ns (7 s). -/
def env0 : OSEnv :=
  { taskPort := 1
    registryRoot := some 2
    idleNanos := fun e => if e = 2 then some 7000000000 else none }

/-- A concrete environment whose registry lookup fails. -/
def envFail : OSEnv :=
  { taskPort := 1
    registryRoot := none
    idleNanos := fun _ => none }

/-- Modelled from the spec (glossary): idle time is the OS-reported duration
since the last user input event.  The environment of a moment nowNs (all
times in nanoseconds) reports, for the registry root, the idle-time property
nowNs - lastInputNs; with no simulated input, lastInputNs does not move. -/
def timedEnv (tp root lastInputNs nowNs : Nat) : OSEnv :=
  { taskPort := tp
    registryRoot := some root
    idleNanos := fun e =>
      if e = root then some (Int.ofNat (nowNs - lastInputNs)) else none }

/-- The handle invariant of the spec's data model (section 3): each OS
handle field is either the designated sentinel or the value actually handed
out by the operating system (the task port, resp. the registry root). -/
def HandleInv (env : OSEnv) (h : PyIdle) : Prop :=
  (h.machPort = sentinel ∨ h.machPort = env.taskPort) ∧
  (h.regEntry = sentinel ∨ env.registryRoot = some h.regEntry)

/-- Queries never mutate the handle: the handle returned by queryStep is the
argument, in every branch. -/
theorem queryStep_fst (env : OSEnv) (h : PyIdle) : (queryStep env h).1 = h := by
  unfold queryStep
  by_cases hs : h.regEntry = sentinel
  · simp [hs]
  · simp [hs]
    cases env.idleNanos h.regEntry <;> simp

/-- The handle left behind by release: both OS handle fields are the
sentinel and the object header is untouched. -/
theorem release_fst (h : PyIdle) :
    (release h).1 =
      { ob_base := h.ob_base, machPort := sentinel, regEntry := sentinel } :=
  rfl

/-- A query against a sentinel registry handle fails cleanly, whatever the
environment: the property-read branch is never reached. -/
theorem query_sentinel (env : OSEnv) (h : PyIdle) (hs : h.regEntry = sentinel) :
    queryIdleSeconds env h = QueryResult.QueryUnavailable := by
  unfold queryIdleSeconds queryStep
  simp [hs]

/-- A sequence of operations containing no release leaves the handle
exactly as constructed. -/
theorem runOps_no_release (env : OSEnv) (h : PyIdle) (ops : List HandleOp)
    (hno : HandleOp.release ∉ ops) : runOps env h ops = h := by
  induction ops generalizing h with
  | nil => rfl
  | cons o ops ih =>
      cases o with
      | query =>
          show runOps env (queryStep env h).1 ops = h
          rw [queryStep_fst]
          exact ih h fun hm => hno (List.mem_cons_of_mem _ hm)
      | release => exact absurd (List.mem_cons_self _ _) hno

/-- Acquisition establishes the handle invariant: the stored Mach port is
the task port and the stored registry entry is either the looked-up root or
the sentinel. -/
theorem handleInv_acquire (env : OSEnv) (head : PyObject_HEAD) :
    HandleInv env (acquire head env).1 := by
  unfold HandleInv acquire
  cases hr : env.registryRoot with
  | none => simp
  | some root => simp [hr]

/-- Every sequence of post-construction operations preserves the handle
invariant. -/
theorem handleInv_runOps (env : OSEnv) (h : PyIdle) (ops : List HandleOp)
    (hinv : HandleInv env h) : HandleInv env (runOps env h ops) := by
  induction ops generalizing h with
  | nil => exact hinv
  | cons o ops ih =>
      cases o with
      | query =>
          show HandleInv env (runOps env (queryStep env h).1 ops)
          rw [queryStep_fst]
          exact ih h hinv
      | release =>
          exact ih (release h).1 ⟨Or.inl rfl, Or.inl rfl⟩

/-- Claim C1: for every handle whose acquisition succeeded, every call to
queryIdleSeconds returns a non-negative duration in whole seconds: in any
query-time environment whose property reads are kernel-reported durations
(hence non-negative), any numeric value the query returns is at least 0. -/
theorem C1_query_nonneg (envA envQ : OSEnv) (head : PyObject_HEAD)
    (hdur : ∀ e n, envQ.idleNanos e = some n → 0 ≤ n)
    (_hsucc : (acquire head envA).2 = none) :
    ∀ v, queryIdleSeconds envQ (acquire head envA).1 = QueryResult.seconds v →
      0 ≤ v := by
  intro v hv
  unfold queryIdleSeconds queryStep at hv
  by_cases hs : (acquire head envA).1.regEntry = sentinel
  · simp [hs] at hv
  · simp [hs] at hv
    cases hn : envQ.idleNanos (acquire head envA).1.regEntry with
    | none => simp [hn] at hv
    | some ns =>
        simp [hn] at hv
        have hns : 0 ≤ ns := hdur _ _ hn
        rw [← hv]
        exact Int.ediv_nonneg hns (by norm_num)

/-- Closed witness for C1 at a concrete environment: acquisition succeeds,
the query returns 7 seconds, and 7 is non-negative. -/
theorem C1_query_nonneg_witness :
    queryIdleSeconds env0 (acquire head0 env0).1 = QueryResult.seconds 7 ∧
      (0 : Int) ≤ 7 :=
  ⟨rfl,
   C1_query_nonneg env0 env0 head0
     (by
       intro e n h
       by_cases he : e = 2
       · simp [env0, he] at h
         omega
       · simp [env0, he] at h)
     rfl 7 rfl⟩

/-- Claim C2: when the registry lookup fails, acquire reports a
construction-time error, leaves the registry handle in the sentinel state,
and every subsequent query on that handle (in any environment) reports
QueryUnavailable instead of dereferencing the invalid handle. -/
theorem C2_acquire_failure (env : OSEnv) (head : PyObject_HEAD)
    (hfail : env.registryRoot = none) :
    (acquire head env).2 = some AcquisitionFailure.registryRootNotFound ∧
    (acquire head env).1.regEntry = sentinel ∧
    ∀ envQ, queryIdleSeconds envQ (acquire head env).1 =
      QueryResult.QueryUnavailable := by
  refine ⟨?_, ?_, ?_⟩
  · simp [acquire, hfail]
  · simp [acquire, hfail]
  · intro envQ
    apply query_sentinel
    simp [acquire, hfail]

/-- Closed witness for C2 at a concrete failing environment: the lookup
fails and a later query, even against a healthy environment, reports
QueryUnavailable. -/
theorem C2_acquire_failure_witness :
    envFail.registryRoot = none ∧
    queryIdleSeconds env0 (acquire head0 envFail).1 =
      QueryResult.QueryUnavailable :=
  ⟨rfl, (C2_acquire_failure envFail head0 rfl).2.2 env0⟩

/-- Claim C3: release is idempotent: releasing an already-released handle
changes nothing and issues no deallocation request to the operating system,
so the underlying OS handles are never freed twice. -/
theorem C3_release_idempotent (h : PyIdle) :
    release (release h).1 = ((release h).1, []) :=
  rfl

/-- Claim C4: after release, every query on the handle, in every
environment, returns QueryUnavailable: the released handles are never read
again. -/
theorem C4_query_after_release (h : PyIdle) (envQ : OSEnv) :
    queryIdleSeconds envQ (release h).1 = QueryResult.QueryUnavailable :=
  query_sentinel envQ _ rfl

/-- Claim C5: invariant preserved by every operation: starting from
construction, after any sequence of queries and releases each handle field
is either the OS-provided value or the sentinel; as long as no release has
occurred the handle is exactly as acquired (so successfully acquired
handles stay valid for the object's lifetime); and no query is ever
attempted against a sentinel handle: such a query fails cleanly in every
environment without reaching the property read. -/
theorem C5_handle_invariant (env : OSEnv) (head : PyObject_HEAD)
    (ops : List HandleOp) :
    HandleInv env (runOps env (acquire head env).1 ops) ∧
    (HandleOp.release ∉ ops →
      runOps env (acquire head env).1 ops = (acquire head env).1) ∧
    (∀ envQ h', h'.regEntry = sentinel →
      queryIdleSeconds envQ h' = QueryResult.QueryUnavailable) := by
  refine ⟨handleInv_runOps env _ ops (handleInv_acquire env head), ?_, ?_⟩
  · intro hno
    exact runOps_no_release env _ ops hno
  · intro envQ h' hs
    exact query_sentinel envQ h' hs

/-- Closed witness for C5: after construction and one query in the concrete
environment the handle is unchanged, and a query against a sentinel handle
reports QueryUnavailable. -/
theorem C5_handle_invariant_witness :
    runOps env0 (acquire head0 env0).1 [HandleOp.query] =
      (acquire head0 env0).1 ∧
    queryIdleSeconds env0 { ob_base := head0, machPort := 3, regEntry := sentinel } =
      QueryResult.QueryUnavailable :=
  ⟨(C5_handle_invariant env0 head0 [HandleOp.query]).2.1 (by decide),
   (C5_handle_invariant env0 head0 [HandleOp.query]).2.2 env0
     { ob_base := head0, machPort := 3, regEntry := sentinel } rfl⟩

/-- Claim C6: when the idle-time property cannot be read at query time (the
entry vanished or the property is absent, so the property read yields
nothing), queryIdleSeconds recovers locally and returns the QueryUnavailable
indication rather than failing fatally. -/
theorem C6_query_unavailable_recovery (env : OSEnv) (h : PyIdle)
    (habs : env.idleNanos h.regEntry = none) :
    queryIdleSeconds env h = QueryResult.QueryUnavailable := by
  unfold queryIdleSeconds queryStep
  by_cases hs : h.regEntry = sentinel <;> simp [hs, habs]

/-- Closed witness for C6: a successfully acquired handle queried in an
environment where its property is gone reports QueryUnavailable. -/
theorem C6_query_unavailable_recovery_witness :
    envFail.idleNanos (acquire head0 env0).1.regEntry = none ∧
    queryIdleSeconds envFail (acquire head0 env0).1 =
      QueryResult.QueryUnavailable :=
  ⟨rfl, C6_query_unavailable_recovery envFail (acquire head0 env0).1 rfl⟩

/-- Counterexample to claim C7 as stated: the spec itself sanctions the
sequence construct, release, query (the query must then report
QueryUnavailable), yet that sequence takes a query transition whose source
state is released, which is not among the three transitions the claim
allows (acquire: unacquired to acquired, query: acquired to acquired,
release: acquired to released). -/
theorem C7_lifecycle_counterexample :
    ¬ ∀ t ∈ transitions env0 Phase.unacquired
        [Op.acquire, Op.release, Op.query], t ∈ claimedTransitions := by
  decide

/-- Claim C7, amended: no operation sequence leaves the three-state
lifecycle, and every transition taken is either one of the three claimed
ones (acquire: unacquired to acquired, query: acquired to acquired self
loop, release: acquired to released) or a tolerated self-loop that leaves
the lifecycle state unchanged (a failed acquisition stays unacquired, a
query or duplicate release on a released handle stays released, a query or
release before acquisition stays unacquired). -/
theorem C7_lifecycle_amended (env : OSEnv) (p : Phase) (ops : List Op) :
    ∀ t ∈ transitions env p ops,
      t ∈ claimedTransitions ∨ t.2.2 = t.1 := by
  induction ops generalizing p with
  | nil => intro t ht; cases ht
  | cons o ops ih =>
      intro t ht
      have hsplit : t = (p, o, phaseStep env p o) ∨
          t ∈ transitions env (phaseStep env p o) ops := by
        simpa [transitions] using ht
      cases hsplit with
      | inl he =>
          subst he
          cases p <;> cases o
          case unacquired.acquire =>
            by_cases hr : (env.registryRoot).isSome
            · left
              simp [phaseStep, hr, claimedTransitions]
            · right
              simp [phaseStep, hr]
          all_goals
            first
            | (left; simp [phaseStep, claimedTransitions]; done)
            | (right; simp [phaseStep])
      | inr hm => exact ih (phaseStep env p o) t hm

/-- Closed witness for the amended C7: in the concrete environment, the
single transition of the one-step sequence acquire is the claimed
acquisition transition. -/
theorem C7_lifecycle_amended_witness :
    (Phase.unacquired, Op.acquire, Phase.acquired) ∈ claimedTransitions ∨
      Phase.acquired = Phase.unacquired :=
  C7_lifecycle_amended env0 Phase.unacquired [Op.acquire]
    (Phase.unacquired, Op.acquire, Phase.acquired) (by decide)

/-- Claim C8: monotone non-decrease absent input: construct the handle at
time t0 (nanoseconds), let N whole seconds elapse with no simulated user
input (the last-input instant lastNs, at or before construction, does not
move), then query: the returned whole-second value is at least N. -/
theorem C8_idle_monotone (head : PyObject_HEAD) (tp root t0 lastNs N : Nat)
    (hroot : root ≠ sentinel) (hlast : lastNs ≤ t0) :
    ∃ v, queryIdleSeconds (timedEnv tp root lastNs (t0 + N * 1000000000))
          (acquire head (timedEnv tp root lastNs t0)).1 =
        QueryResult.seconds v ∧ (N : Int) ≤ v := by
  have hq : queryIdleSeconds (timedEnv tp root lastNs (t0 + N * 1000000000))
      (acquire head (timedEnv tp root lastNs t0)).1 =
      QueryResult.seconds
        (Int.ofNat (t0 + N * 1000000000 - lastNs) / 1000000000) := by
    unfold queryIdleSeconds queryStep acquire timedEnv
    simp [hroot]
  refine ⟨_, hq, ?_⟩
  have hnat : N ≤ (t0 + N * 1000000000 - lastNs) / 1000000000 := by
    rw [Nat.le_div_iff_mul_le (by norm_num)]
    omega
  exact Int.ofNat_le.mpr hnat

/-- Closed witness for C8 at concrete times: construction at 10 ns with the
last input at 4 ns, a wait of 3 seconds, and a query returning at least 3
seconds. -/
theorem C8_idle_monotone_witness :
    (2 : Nat) ≠ sentinel ∧ (4 : Nat) ≤ 10 ∧
    ∃ v, queryIdleSeconds (timedEnv 1 2 4 (10 + 3 * 1000000000))
          (acquire head0 (timedEnv 1 2 4 10)).1 =
        QueryResult.seconds v ∧ (3 : Int) ≤ v :=
  ⟨by decide, by decide,
   C8_idle_monotone head0 1 2 10 4 3 (by decide) (by decide)⟩

/-- Claim C9: a PyIdle instance consists of exactly the host runtime's
object header and the two OS handle fields machPort and regEntry: two
instances agreeing on those three components are equal, so no idle-time
value and no separate lifecycle flag is cached anywhere in the object. -/
theorem C9_state_is_two_handles (a b : PyIdle)
    (hh : a.ob_base = b.ob_base) (hm : a.machPort = b.machPort)
    (hr : a.regEntry = b.regEntry) : a = b := by
  cases a
  cases b
  simp_all

/-- Closed witness for C9 at two concrete instances with equal fields. -/
theorem C9_state_is_two_handles_witness :
    ({ ob_base := head0, machPort := 1, regEntry := 2 } : PyIdle) =
      { ob_base := head0, machPort := 1, regEntry := 2 } :=
  C9_state_is_two_handles
    { ob_base := head0, machPort := 1, regEntry := 2 }
    { ob_base := head0, machPort := 1, regEntry := 2 } rfl rfl rfl

/-- Claim C10: queryIdleSeconds is read-only with respect to the handle: in
every state, whether the query returns a value or QueryUnavailable, the
handle after the call is the argument handle, and in particular machPort
and regEntry are unchanged. -/
theorem C10_query_readonly (env : OSEnv) (h : PyIdle) :
    (queryStep env h).1.machPort = h.machPort ∧
    (queryStep env h).1.regEntry = h.regEntry ∧
    (queryStep env h).1 = h := by
  rw [queryStep_fst]
  exact ⟨rfl, rfl, rfl⟩
